import Mathlib

/-!
Shallow embedding of `src/project_builder.py` (the "Project Builder" provisioning
pipeline).  The definitions below are translated directly from the Python source:

* `validate_package_name` — the pure package-name validation predicate
  (`validate_package_name`, lines 50–75);
* `streamLoop` — the line-streaming loop of `ProjectWorker.run_command_stream`
  (lines 218–253), with the child process modelled as its list of output lines
  plus its exit code, and the `stop_event` modelled as the value the flag has at
  the k-th loop check;
* an executable filesystem model for `ProjectWorker.create_directory_structure`
  (lines 255–275);
* functional models of the installer strategy
  (`install_packages_batch` / `install_packages_individual`, lines 304–364),
  of `_cleanup_partial` (lines 529–536) and of the whole `ProjectWorker.run`
  pipeline (lines 538–628).  Exception texts carried inside event messages are
  abbreviated to the fixed string "error"; the cancellation flag is modelled as
  a per-run constant in the pipeline model (the flag has edge semantics: once
  set it stays set for the run).
-/

namespace ProjectBuilder

/-! ### Package-name validation (`validate_package_name`, lines 50–75) -/

/-- The version separators tried in order by the Python loop
`for sep in ['==', '>=', '<=', '>', '<', '~=', '!=']`. -/
def versionSeps : List String := ["==", ">=", "<=", ">", "<", "~=", "!="]

/-- Occurrence check over character lists: `sep` occurs in `s` iff it is a
prefix of some suffix of `s`. -/
def subOccurs (sep : List Char) : List Char → Bool
  | [] => sep.isEmpty
  | c :: rest => sep.isPrefixOf (c :: rest) || subOccurs sep rest

/-- The characters of `s` strictly before the first occurrence of `sep`
(all of `s` when `sep` does not occur): this is Python's `s.split(sep)[0]`. -/
def beforeSub (sep : List Char) : List Char → List Char
  | [] => []
  | c :: rest => if sep.isPrefixOf (c :: rest) then [] else c :: beforeSub sep rest

/-- Python's `sep in pkg` (the separators are all nonempty). -/
def strContains (s sep : String) : Bool := subOccurs sep.toList s.toList

/-- `base_name = pkg.split(sep)[0]` for the first separator occurring in `pkg`,
else `pkg` itself. -/
def baseNameOf (pkg : String) : String :=
  match versionSeps.find? (fun sep => strContains pkg sep) with
  | some sep => ⟨beforeSub sep.toList pkg.toList⟩
  | none => pkg

/-- The shell metacharacters checked by
`any(char in base_name for char in [';', '|', '&', '$', '\x60'])`
(the last one is the backtick). -/
def metaChars : List Char := [';', '|', '&', '$', '\x60']

/-- The URL-like prefixes rejected by `base_name.startswith((...))`. -/
def urlPieces : List String := ["http://", "https://", "git+", "svn+"]

/-- `[a-zA-Z0-9]` (the character classes of the regex are explicit ASCII
ranges). -/
def isAlnumAscii (c : Char) : Bool := c.isAlpha || c.isDigit

/-- `[a-zA-Z0-9._-]`, the middle character class of the regex. -/
def isNameMid (c : Char) : Bool :=
  isAlnumAscii c || c = '.' || c = '_' || c = '-'

/-- Matches the tail of the name pattern: zero or more middle characters
followed by one final `[a-zA-Z0-9]`. -/
def isNameTail : List Char → Bool
  | [] => false
  | [c] => isAlnumAscii c
  | c :: cs => isNameMid c && isNameTail cs

/-- Hand compilation of `re.match(r'^[a-zA-Z0-9][a-zA-Z0-9._-]*[a-zA-Z0-9]$', s)`:
a first alphanumeric character, middle characters from `[a-zA-Z0-9._-]`, and a
final alphanumeric character (so at least two characters in total). -/
def matchNamePattern (s : String) : Bool :=
  match s.toList with
  | [] => false
  | [_] => false
  | c :: cs => isAlnumAscii c && isNameTail cs

/-- `validate_package_name(pkg) -> (is_valid, error_message)` (lines 50–75). -/
def validate_package_name (pkg : String) : Bool × String :=
  if pkg = "" then (false, "Package name cannot be empty")
  else
    let base := baseNameOf pkg
    if metaChars.any (fun c => base.toList.any (fun x => x = c)) then
      (false, "Invalid characters in package: " ++ base)
    else if urlPieces.any (fun p => p.toList.isPrefixOf base.toList) then
      (false, "Direct URLs not supported. Use package names only.")
    else if matchNamePattern base then (true, "")
    else (false, "Invalid package name format: " ++ base)

/-! ### Events (`ProjectWorker.post` message kinds) -/

/-- The messages `ProjectWorker` posts onto the queue.  `done` carries the
success flag (the code encodes it in the two distinct message texts of lines
612 and 627); `summary` carries the dict payload of line 613 with the size kept
in raw bytes (the code formats it to a human-readable string); `progress`
carries the fraction `idx/total` as the pair `(idx, total)`. -/
inductive Ev where
  | log (text : String)
  | ok (text : String)
  | warn (text : String)
  | error (text : String)
  | info (text : String)
  | progress (idx total : Nat)
  | done (succeeded : Bool)
  | summary (projectPath : String) (sizeBytes : Nat) (packageCount : Nat)
      (gitInitialized : Bool)
  | progressComplete
  deriving Repr, DecidableEq

/-- `true` exactly on `summary` events. -/
def isSummaryEv : Ev → Bool
  | .summary _ _ _ _ => true
  | _ => false

/-- `true` exactly on `warn` events. -/
def isWarnEv : Ev → Bool
  | .warn _ => true
  | _ => false

/-! ### Process runner (`run_command_stream`, lines 218–253) -/

/-- `line.rstrip()`: drop trailing whitespace. -/
def rstrip (s : String) : String :=
  ⟨(s.toList.reverse.dropWhile Char.isWhitespace).reverse⟩

/-- Result of the streaming loop: the posted events, the returned code, and
whether `proc.kill()` was invoked (the cancellation branch). -/
structure StreamOut where
  events : List Ev
  code : Int
  killed : Bool
  deriving Repr, DecidableEq

/-- The `while True` loop of `run_command_stream` (lines 237–253).  The child
process is `lines` (its remaining combined stdout/stderr lines) together with
its final `returncode` `rc`.  `stop k` is the value `self.stop_event.is_set()`
returns at the k-th check.  Each iteration first checks the flag: if set, the
child is killed, one `warn "Operation cancelled by user."` is posted and the
code `1` returned; otherwise the next line (if any) is logged with trailing
whitespace stripped, and when the output is exhausted the loop exits with the
process's exit code. -/
def streamLoop (stop : Nat → Bool) : Nat → List String → Int → StreamOut
  | k, lines, rc =>
    if stop k then
      { events := [Ev.warn "Operation cancelled by user."], code := 1, killed := true }
    else
      match lines with
      | [] => { events := [], code := rc, killed := false }
      | l :: rest =>
        let r := streamLoop stop (k + 1) rest rc
        { r with events := Ev.log (rstrip l) :: r.events }

/-! ### Filesystem model for `create_directory_structure` (lines 255–275) -/

/-- The fixed list of subdirectories created by
`create_directory_structure`. -/
def layoutDirs : List String :=
  ["src", "tests", "docs", "data", "notebooks", "config", "logs"]

/-- A flat filesystem: the set of directories (as a list of names under the
project directory) and the files (path together with content). -/
structure FS where
  dirs : List String
  files : List (String × String)
  deriving Repr, DecidableEq

/-- `dir_path.mkdir(exist_ok=True)`: no fault when the directory is already
present, otherwise it is created. -/
def mkdirExistOk (fs : FS) (d : String) : FS :=
  if d ∈ fs.dirs then fs else { fs with dirs := fs.dirs ++ [d] }

/-- `init_file.touch()`: creates an empty file when absent, leaves an existing
file (and its content) unchanged. -/
def touchFile (fs : FS) (p : String) : FS :=
  if fs.files.any (fun e => e.1 = p) then fs
  else { fs with files := fs.files ++ [(p, "")] }

/-- One iteration of the `for directory in directories` loop: make the
directory, and in `src` and `tests` additionally touch `__init__.py`. -/
def layoutStep (fs : FS) (d : String) : FS :=
  let fs := mkdirExistOk fs d
  if d = "src" || d = "tests" then touchFile fs (d ++ "/__init__.py") else fs

/-- `create_directory_structure` acting on the filesystem state. -/
def create_directory_structure_fs (fs : FS) : FS :=
  layoutDirs.foldl layoutStep fs

/-! ### Pipeline models (`ProjectWorker.run` and the steps it calls)

In the pipeline model the cancellation flag is a per-run constant `stop : Bool`
(the flag has edge semantics; `streamLoop` above keeps the fully time-varying
flag).  Each external command's outcome is an oracle supplied in `RunEnv`; the
child's log lines are elided (only `run_command_stream`'s cancellation warning
and return code matter to the pipeline), and every invoked command's argument
vector is recorded. -/

/-- Outcome of one `run_command_stream` call as seen by the pipeline: posted
events, the launched argument vector, and the return code.  When the stop flag
is set, the loop cancels at its first check (the process is still launched
first, then killed): one warning and code `1`. -/
structure CmdOut where
  events : List Ev
  cmds : List (List String)
  code : Int
  deriving Repr, DecidableEq

/-- Projection of `run_command_stream` used by the pipeline model. -/
def runCmdRec (stop : Bool) (cmd : List String) (rc : Int) : CmdOut :=
  if stop then
    { events := [Ev.warn "Operation cancelled by user."], cmds := [cmd], code := 1 }
  else
    { events := [], cmds := [cmd], code := rc }

/-- Events of the `for directory in directories` loop of
`create_directory_structure` as posted during `run` (line 550).  `failAt` is
`some i` when the i-th `mkdir` raises (the loop then stops with the exception
propagating to `run`'s catch-all); the flag is `false` exactly when the loop
raised. -/
def layoutRunEvents (failAt : Option Nat) : List Ev × Bool :=
  match failAt with
  | none => (layoutDirs.map (fun d => Ev.log ("Created directory: " ++ d ++ "/")), true)
  | some i =>
    if i < layoutDirs.length then
      ((layoutDirs.take i).map (fun d => Ev.log ("Created directory: " ++ d ++ "/")), false)
    else
      (layoutDirs.map (fun d => Ev.log ("Created directory: " ++ d ++ "/")), true)

/-- Result of `create_venv` (lines 277–302): events, launched commands, and
the returned boolean. -/
structure VenvOut where
  events : List Ev
  cmds : List (List String)
  ok : Bool
  deriving Repr, DecidableEq

/-- `create_venv` (lines 277–302): write-permission probe, then
`[sys.executable, "-m", "venv", path, "--prompt", name]` through
`run_command_stream`. -/
def createVenvStep (stop : Bool) (writePerm : Bool) (venvPath : String)
    (promptName : String) (rc : Int) : VenvOut :=
  if writePerm = false then
    { events := [Ev.error ("No write permission for: " ++ venvPath)], cmds := [], ok := false }
  else
    let pre := [Ev.log ("Creating virtual environment at: " ++ venvPath ++ " ...")]
    let r := runCmdRec stop ["<sys.executable>", "-m", "venv", venvPath, "--prompt", promptName] rc
    if r.code = 0 then
      { events := pre ++ r.events ++ [Ev.ok "Virtual environment created successfully."],
        cmds := r.cmds, ok := true }
    else
      { events := pre ++ r.events ++ [Ev.error "Virtual environment creation failed."],
        cmds := r.cmds, ok := false }

/-- The validation loop at the top of `install_packages_batch` (lines
312–318): keeps the packages that pass `validate_package_name` in order and
posts one skip warning per invalid entry. -/
def filterValidated : List String → List String × List Ev
  | [] => ([], [])
  | p :: ps =>
    let rest := filterValidated ps
    let r := validate_package_name p
    if r.1 then (p :: rest.1, rest.2)
    else (rest.1, Ev.warn ("Skipping invalid package: " ++ p ++ " (" ++ r.2 ++ ")") :: rest.2)

/-- Result of an installer routine: posted events, launched commands, the
returned boolean, and the number of packages whose install command returned
zero (the `success_count` accounting). -/
structure StepOut where
  events : List Ev
  cmds : List (List String)
  ok : Bool
  count : Nat
  deriving Repr, DecidableEq

/-- The `for idx, pkg in enumerate(packages, start=1)` loop of
`install_packages_individual` (lines 340–354) with the stop flag not set:
each iteration logs the attempt, runs `[pip, "install", pkg]`, counts a
success or posts a failure error, and posts `progress idx/total`. -/
def installLoop (pip : String) (rcOf : String → Int) (total : Nat) :
    List String → Nat → Nat → List Ev × List (List String) × Nat
  | [], _, count => ([], [], count)
  | pkg :: rest, idx, count =>
    let r := runCmdRec false [pip, "install", pkg] (rcOf pkg)
    let evs :=
      Ev.log ("Installing [" ++ toString idx ++ "/" ++ toString total ++ "]: " ++ pkg ++ " ...")
        :: r.events
        ++ (if r.code = 0 then [] else [Ev.error ("Failed to install: " ++ pkg)])
        ++ [Ev.progress idx total]
    let next := installLoop pip rcOf total rest (idx + 1) (if r.code = 0 then count + 1 else count)
    (evs ++ next.1, r.cmds ++ next.2.1, next.2.2)

/-- `install_packages_individual` (lines 335–364).  With the (constant) stop
flag set and a nonempty list, the check at the top of the first iteration
returns `False` at once.  Otherwise, after the loop: all succeeded → ok
message and `True`; some succeeded → warning with the installed/requested
counts and `True`; none succeeded → error and `False`. -/
def install_packages_individual (stop : Bool) (pip : String) (rcOf : String → Int)
    (packages : List String) : StepOut :=
  if stop && !packages.isEmpty then
    { events := [], cmds := [], ok := false, count := 0 }
  else
    let total := packages.length
    let r := installLoop pip rcOf total packages 1 0
    let count := r.2.2
    if count = total then
      { events := r.1 ++ [Ev.ok "All packages installed successfully."],
        cmds := r.2.1, ok := true, count := count }
    else if 0 < count then
      { events := r.1 ++
          [Ev.warn ("Installed " ++ toString count ++ "/" ++ toString total ++ " packages.")],
        cmds := r.2.1, ok := true, count := count }
    else
      { events := r.1 ++ [Ev.error "No packages were installed."],
        cmds := r.2.1, ok := false, count := count }

/-- `install_packages_batch` (lines 304–333): validate and filter, try one
batch `pip install` with every validated package, and on a nonzero code fall
back to `install_packages_individual` on the validated list. -/
def install_packages_batch (stop : Bool) (pip : String) (rcOf : String → Int)
    (batchRc : Int) (packages : List String) : StepOut :=
  if packages.isEmpty then
    { events := [], cmds := [], ok := true, count := 0 }
  else
    let pre := [Ev.log ("Installing " ++ toString packages.length ++ " package(s) in batch...")]
    let v := filterValidated packages
    if v.1.isEmpty then
      { events := pre ++ v.2 ++ [Ev.log "No valid packages to install."],
        cmds := [], ok := true, count := 0 }
    else
      let r := runCmdRec stop (pip :: "install" :: v.1) batchRc
      if r.code = 0 then
        { events := pre ++ v.2 ++ r.events ++ [Ev.ok "Batch installation successful."],
          cmds := r.cmds, ok := true, count := v.1.length }
      else
        let ind := install_packages_individual stop pip rcOf v.1
        { events := pre ++ v.2 ++ r.events ++
            [Ev.warn "Batch installation failed, trying individual packages..."] ++ ind.events,
          cmds := r.cmds ++ ind.cmds, ok := ind.ok, count := ind.count }

/-- `write_requirements` (lines 366–379): all faults are caught inside. -/
def writeRequirementsStep (ok : Bool) (projectDir : String) : List Ev :=
  if ok then [Ev.ok ("requirements.txt saved (" ++ projectDir ++ "/requirements.txt)")]
  else [Ev.error "Failed to write requirements.txt: error"]

/-- `create_readme` (lines 381–446): all faults are caught inside. -/
def createReadmeStep (ok : Bool) : List Ev :=
  if ok then [Ev.ok "README.md created."]
  else [Ev.error "Failed to create README.md: error"]

/-- `create_git_repo` (lines 448–527): git commands go through
`subprocess.run` (not `run_command_stream`); all faults are caught inside. -/
def createGitRepoStep (available ok : Bool) : List Ev :=
  if available = false then
    [Ev.warn "Git not found or not in PATH. Skipping git initialization."]
  else if ok then
    [Ev.log "Initializing git repository...",
     Ev.ok "Git repository initialized with initial commit."]
  else
    [Ev.log "Initializing git repository...", Ev.error "Git operation failed: error"]

/-- `_cleanup_partial` (lines 529–536): removes the venv directory exactly
when the cleanup option is on, `self.venv_path` has been set, and the
directory exists on disk; an `shutil.rmtree` fault is caught and posted as a
warning.  Returns the posted events and whether the directory was removed. -/
def cleanupVenvStep (cleanupFlag venvSet venvExistsNow rmtreeOk : Bool) :
    List Ev × Bool :=
  if cleanupFlag && venvSet && venvExistsNow then
    if rmtreeOk then ([Ev.log "Cleaned up partial virtual environment."], true)
    else ([Ev.warn "Failed to cleanup: error"], false)
  else ([], false)

/-- The environment of one `ProjectWorker.run` call: the request (packages and
options), the per-run constant value of the stop flag, and oracles for every
external effect (filesystem faults and process exit codes). -/
structure RunEnv where
  projectDir : String
  packages : List String
  createReadmeOpt : Bool
  createGitOpt : Bool
  cleanupOnFail : Bool
  stop : Bool
  mkdirOk : Bool
  layoutFault : Option Nat
  venvPreexists : Bool
  venvWritePerm : Bool
  venvCmdRc : Int
  pipExists : Bool
  pythonExists : Bool
  pipExec : String
  pythonExec : String
  batchRc : Int
  rcOf : String → Int
  pyPipRc : Int
  reqWriteOk : Bool
  readmeWriteOk : Bool
  gitAvailable : Bool
  gitOk : Bool
  rmtreeOk : Bool
  sizeBytes : Nat

/-- Result of one `ProjectWorker.run`: the posted events in order, the final
`self.success`, all argument vectors launched through `run_command_stream`,
the number of packages whose install command returned zero, whether
`_cleanup_partial` was invoked, and whether it removed the venv directory. -/
structure RunResult where
  events : List Ev
  success : Bool
  cmds : List (List String)
  installedCount : Nat
  cleanupRan : Bool
  venvRemoved : Bool
  deriving Repr, DecidableEq

/-- The `finally` block of `run` (lines 624–628): when `self.success` is still
false a failure `done` is posted, and `progress_complete` is always posted
last. -/
def finalizeRun (body : List Ev) (success : Bool) (cmds : List (List String))
    (count : Nat) (cleanupRan venvRemoved : Bool) : RunResult :=
  { events := body ++ (if success then [] else [Ev.done false]) ++ [Ev.progressComplete],
    success := success, cmds := cmds, installedCount := count,
    cleanupRan := cleanupRan, venvRemoved := venvRemoved }

/-- Steps 5–9 of `run` (lines 594–618): requirements, optional README,
optional git, size, then the success `done` and the `summary` whose
`package_count` is `len(self.packages)` and whose `git_initialized` is the
option flag. -/
def afterInstall (e : RunEnv) (evs : List Ev) (cmds : List (List String))
    (count : Nat) : RunResult :=
  let evs := evs ++ writeRequirementsStep e.reqWriteOk e.projectDir
  let evs := evs ++ (if e.createReadmeOpt then createReadmeStep e.readmeWriteOk else [])
  let evs := evs ++ (if e.createGitOpt then createGitRepoStep e.gitAvailable e.gitOk else [])
  let evs := evs ++ [Ev.info ("Project size: " ++ toString e.sizeBytes)]
  let evs := evs ++ [Ev.done true,
    Ev.summary e.projectDir e.sizeBytes e.packages.length e.createGitOpt]
  finalizeRun evs true cmds count false false

/-- Step 4 of `run` (lines 561–592): locate pip (falling back to
`python -m pip`, which receives the *raw* `self.packages` list), then install.
`venvEx` says whether the venv directory exists at this point (it drives
`_cleanup_partial`). -/
def afterVenv (e : RunEnv) (evs : List Ev) (cmds : List (List String))
    (venvEx : Bool) : RunResult :=
  if !e.pipExists && !e.pythonExists then
    let cl := cleanupVenvStep e.cleanupOnFail true venvEx e.rmtreeOk
    finalizeRun (evs ++ [Ev.error "Cannot locate pip in venv. Aborting."] ++ cl.1)
      false cmds 0 true cl.2
  else
    let usePython := !e.pipExists
    let evs := evs ++
      (if usePython then [Ev.log "Using python -m pip (pip binary not found)."] else [])
    if e.packages.isEmpty then
      afterInstall e (evs ++ [Ev.log "No packages to install."]) cmds 0
    else
      if usePython then
        let r := runCmdRec e.stop (e.pythonExec :: "-m" :: "pip" :: "install" :: e.packages)
          e.pyPipRc
        if r.code = 0 then
          afterInstall e (evs ++ r.events) (cmds ++ r.cmds) e.packages.length
        else
          let cl := cleanupVenvStep e.cleanupOnFail true venvEx e.rmtreeOk
          finalizeRun (evs ++ r.events ++ [Ev.error "Package installation failed."] ++ cl.1)
            false (cmds ++ r.cmds) 0 true cl.2
      else
        let r := install_packages_batch e.stop e.pipExec e.rcOf e.batchRc e.packages
        if r.ok then
          afterInstall e (evs ++ r.events) (cmds ++ r.cmds) r.count
        else
          let cl := cleanupVenvStep e.cleanupOnFail true venvEx e.rmtreeOk
          finalizeRun (evs ++ r.events ++ cl.1) false (cmds ++ r.cmds) r.count true cl.2

/-- `ProjectWorker.run` (lines 538–628).  Steps 1–3: project folder (fatal,
no cleanup), directory layout (an exception here propagates to the catch-all
of line 620, which posts two error events, and the run fails), then the venv
(reused with a warning when present, else created; a creation failure runs
`_cleanup_partial` and aborts). -/
def runWorker (e : RunEnv) : RunResult :=
  if e.mkdirOk = false then
    finalizeRun [Ev.error "Cannot create project folder: error"] false [] 0 false false
  else
    let evs := [Ev.ok ("Project folder: " ++ e.projectDir)]
    let lay := layoutRunEvents e.layoutFault
    if lay.2 = false then
      finalizeRun (evs ++ lay.1 ++ [Ev.error "Unexpected error: error", Ev.error "traceback"])
        false [] 0 false false
    else
      let evs := evs ++ lay.1
      if e.venvPreexists then
        afterVenv e (evs ++ [Ev.warn "venv already exists - reusing."]) [] true
      else
        let v := createVenvStep e.stop e.venvWritePerm (e.projectDir ++ "/venv")
          e.projectDir e.venvCmdRc
        if v.ok then
          afterVenv e (evs ++ v.events) v.cmds true
        else
          let cl := cleanupVenvStep e.cleanupOnFail true false e.rmtreeOk
          finalizeRun (evs ++ v.events ++ cl.1) false v.cmds 0 true cl.2

/-! ### Helper lemmas -/

/-- No event of the list is a `summary`. -/
def summaryFreeB (evs : List Ev) : Bool := evs.all (fun x => !isSummaryEv x)

@[simp] lemma summaryFreeB_nil : summaryFreeB [] = true := rfl

@[simp] lemma summaryFreeB_cons (x : Ev) (xs : List Ev) :
    summaryFreeB (x :: xs) = (!isSummaryEv x && summaryFreeB xs) := by
  simp [summaryFreeB]

@[simp] lemma summaryFreeB_append (a b : List Ev) :
    summaryFreeB (a ++ b) = (summaryFreeB a && summaryFreeB b) := by
  simp [summaryFreeB, List.all_append]

@[simp] lemma isSummaryEv_log (s : String) : isSummaryEv (.log s) = false := rfl
@[simp] lemma isSummaryEv_ok (s : String) : isSummaryEv (.ok s) = false := rfl
@[simp] lemma isSummaryEv_warn (s : String) : isSummaryEv (.warn s) = false := rfl
@[simp] lemma isSummaryEv_error (s : String) : isSummaryEv (.error s) = false := rfl
@[simp] lemma isSummaryEv_info (s : String) : isSummaryEv (.info s) = false := rfl
@[simp] lemma isSummaryEv_progress (i n : Nat) : isSummaryEv (.progress i n) = false := rfl
@[simp] lemma isSummaryEv_done (b : Bool) : isSummaryEv (.done b) = false := rfl
@[simp] lemma isSummaryEv_pc : isSummaryEv .progressComplete = false := rfl

lemma not_mem_of_summaryFreeB {evs : List Ev} (h : summaryFreeB evs = true)
    (p : String) (s n : Nat) (g : Bool) : Ev.summary p s n g ∉ evs := by
  intro hmem
  simp only [summaryFreeB, List.all_eq_true] at h
  have := h _ hmem
  simp [isSummaryEv] at this

lemma summaryFreeB_runCmdRec (stop : Bool) (cmd : List String) (rc : Int) :
    summaryFreeB (runCmdRec stop cmd rc).events = true := by
  unfold runCmdRec
  split <;> simp

lemma summaryFreeB_logMap (l : List String) (f : String → String) :
    summaryFreeB (l.map (fun d => Ev.log (f d))) = true := by
  induction l with
  | nil => simp
  | cons a l ih => simp [ih]

lemma summaryFreeB_layout (o : Option Nat) :
    summaryFreeB (layoutRunEvents o).1 = true := by
  unfold layoutRunEvents
  cases o with
  | none => exact summaryFreeB_logMap _ (fun d => "Created directory: " ++ d ++ "/")
  | some i =>
    dsimp only
    split
    · exact summaryFreeB_logMap _ (fun d => "Created directory: " ++ d ++ "/")
    · exact summaryFreeB_logMap _ (fun d => "Created directory: " ++ d ++ "/")

lemma summaryFreeB_createVenv (stop wp : Bool) (vp n : String) (rc : Int) :
    summaryFreeB (createVenvStep stop wp vp n rc).events = true := by
  have h := summaryFreeB_runCmdRec stop ["<sys.executable>", "-m", "venv", vp, "--prompt", n] rc
  unfold createVenvStep
  dsimp only
  split
  · simp
  · split <;> simp [h]

lemma summaryFreeB_filterValidated (pkgs : List String) :
    summaryFreeB (filterValidated pkgs).2 = true := by
  induction pkgs with
  | nil => simp [filterValidated]
  | cons p ps ih =>
    unfold filterValidated
    dsimp only
    split <;> simp [ih]

lemma summaryFreeB_installLoop (pip : String) (rcOf : String → Int) (total : Nat)
    (pkgs : List String) (idx count : Nat) :
    summaryFreeB (installLoop pip rcOf total pkgs idx count).1 = true := by
  induction pkgs generalizing idx count with
  | nil => simp [installLoop]
  | cons p ps ih =>
    unfold installLoop
    dsimp only [runCmdRec]
    split <;> split <;> simp [ih]

lemma summaryFreeB_individual (stop : Bool) (pip : String) (rcOf : String → Int)
    (pkgs : List String) :
    summaryFreeB (install_packages_individual stop pip rcOf pkgs).events = true := by
  have h := summaryFreeB_installLoop pip rcOf pkgs.length pkgs 1 0
  unfold install_packages_individual
  dsimp only
  split
  · simp
  · split
    · simp [h]
    · split <;> simp [h]

lemma summaryFreeB_batch (stop : Bool) (pip : String) (rcOf : String → Int)
    (batchRc : Int) (pkgs : List String) :
    summaryFreeB (install_packages_batch stop pip rcOf batchRc pkgs).events = true := by
  have h1 := summaryFreeB_filterValidated pkgs
  have h2 := summaryFreeB_runCmdRec stop (pip :: "install" :: (filterValidated pkgs).1) batchRc
  have h3 := summaryFreeB_individual stop pip rcOf (filterValidated pkgs).1
  unfold install_packages_batch
  dsimp only
  split
  · simp
  · split
    · simp [h1]
    · split <;> simp [h1, h2, h3]

lemma summaryFreeB_writeReq (ok : Bool) (d : String) :
    summaryFreeB (writeRequirementsStep ok d) = true := by
  unfold writeRequirementsStep
  split <;> simp

lemma summaryFreeB_readme (ok : Bool) :
    summaryFreeB (createReadmeStep ok) = true := by
  unfold createReadmeStep
  split <;> simp

lemma summaryFreeB_git (av ok : Bool) :
    summaryFreeB (createGitRepoStep av ok) = true := by
  unfold createGitRepoStep
  split
  · simp
  · split <;> simp

lemma summaryFreeB_cleanup (f vs ve rm : Bool) :
    summaryFreeB (cleanupVenvStep f vs ve rm).1 = true := by
  unfold cleanupVenvStep
  split
  · split <;> simp
  · simp

/-- Every run through `afterInstall` succeeds and its events end with the
success `done`, the `summary` (whose count is `len(self.packages)`), and
`progress_complete`, with no other `summary` anywhere. -/
lemma afterInstall_shape (e : RunEnv) (evs : List Ev) (cmds : List (List String))
    (count : Nat) (h : summaryFreeB evs = true) :
    ∃ pre, (afterInstall e evs cmds count).events =
        pre ++ [Ev.done true,
          Ev.summary e.projectDir e.sizeBytes e.packages.length e.createGitOpt,
          Ev.progressComplete] ∧
      summaryFreeB pre = true ∧ (afterInstall e evs cmds count).success = true := by
  refine ⟨evs ++ writeRequirementsStep e.reqWriteOk e.projectDir
    ++ (if e.createReadmeOpt then createReadmeStep e.readmeWriteOk else [])
    ++ (if e.createGitOpt then createGitRepoStep e.gitAvailable e.gitOk else [])
    ++ [Ev.info ("Project size: " ++ toString e.sizeBytes)], ?_, ?_, rfl⟩
  · unfold afterInstall finalizeRun
    dsimp only
    simp
  · have hr : summaryFreeB (if e.createReadmeOpt then createReadmeStep e.readmeWriteOk
        else []) = true := by
      split <;> simp [summaryFreeB_readme]
    have hg : summaryFreeB (if e.createGitOpt then createGitRepoStep e.gitAvailable e.gitOk
        else []) = true := by
      split <;> simp [summaryFreeB_git]
    simp [h, hr, hg, summaryFreeB_writeReq]

/-- Shape of everything downstream of step 3: either the run succeeds and ends
with `done true`, the `summary`, `progress_complete`, or it fails and ends
with `done false`, `progress_complete`; in both cases everything before that
tail is `summary`-free. -/
lemma afterVenv_shape (e : RunEnv) (evs : List Ev) (cmds : List (List String))
    (venvEx : Bool) (h : summaryFreeB evs = true) :
    (∃ pre, (afterVenv e evs cmds venvEx).events =
        pre ++ [Ev.done true,
          Ev.summary e.projectDir e.sizeBytes e.packages.length e.createGitOpt,
          Ev.progressComplete] ∧
      summaryFreeB pre = true ∧ (afterVenv e evs cmds venvEx).success = true) ∨
    (∃ pre, (afterVenv e evs cmds venvEx).events =
        pre ++ [Ev.done false, Ev.progressComplete] ∧
      summaryFreeB pre = true ∧ (afterVenv e evs cmds venvEx).success = false) := by
  cases hpip : e.pipExists with
  | true =>
    unfold afterVenv
    simp only [hpip, Bool.not_true, Bool.false_and, Bool.false_eq_true, if_false,
      Bool.not_false, if_neg, ite_false, List.append_nil]
    split
    · exact Or.inl (afterInstall_shape e _ cmds 0 (by simp [h]))
    · split
      · exact Or.inl (afterInstall_shape e _ _ _ (by simp [h, summaryFreeB_batch]))
      · right
        refine ⟨evs
          ++ (install_packages_batch e.stop e.pipExec e.rcOf e.batchRc e.packages).events
          ++ (cleanupVenvStep e.cleanupOnFail true venvEx e.rmtreeOk).1, ?_, ?_, rfl⟩
        · unfold finalizeRun; simp
        · simp [h, summaryFreeB_batch, summaryFreeB_cleanup]
  | false =>
    cases hpy : e.pythonExists with
    | false =>
      unfold afterVenv
      simp only [hpip, hpy, Bool.not_false, Bool.and_self, if_true, ite_true]
      right
      refine ⟨evs ++ [Ev.error "Cannot locate pip in venv. Aborting."]
        ++ (cleanupVenvStep e.cleanupOnFail true venvEx e.rmtreeOk).1, ?_, ?_, rfl⟩
      · unfold finalizeRun; simp
      · simp [h, summaryFreeB_cleanup]
    | true =>
      unfold afterVenv
      simp only [hpip, hpy, Bool.not_false, Bool.not_true, Bool.and_false, Bool.false_eq_true,
        if_false, ite_true, ite_false]
      split
      · exact Or.inl (afterInstall_shape e _ cmds 0 (by simp [h]))
      · split
        · exact Or.inl (afterInstall_shape e _ _ e.packages.length (by
            simp [h, summaryFreeB_runCmdRec]))
        · right
          refine ⟨(evs ++ [Ev.log "Using python -m pip (pip binary not found)."])
            ++ (runCmdRec e.stop
                (e.pythonExec :: "-m" :: "pip" :: "install" :: e.packages) e.pyPipRc).events
            ++ [Ev.error "Package installation failed."]
            ++ (cleanupVenvStep e.cleanupOnFail true venvEx e.rmtreeOk).1, ?_, ?_, rfl⟩
          · unfold finalizeRun; simp
          · simp [h, summaryFreeB_runCmdRec, summaryFreeB_cleanup]

/-- Master shape lemma for `run`: every run ends with `done true`,
`summary`, `progress_complete` (success) or with `done false`,
`progress_complete` (failure), with everything before the tail
`summary`-free. -/
lemma runWorker_shape (e : RunEnv) :
    (∃ pre, (runWorker e).events =
        pre ++ [Ev.done true,
          Ev.summary e.projectDir e.sizeBytes e.packages.length e.createGitOpt,
          Ev.progressComplete] ∧
      summaryFreeB pre = true ∧ (runWorker e).success = true) ∨
    (∃ pre, (runWorker e).events =
        pre ++ [Ev.done false, Ev.progressComplete] ∧
      summaryFreeB pre = true ∧ (runWorker e).success = false) := by
  unfold runWorker
  dsimp only
  split
  · right
    refine ⟨[Ev.error "Cannot create project folder: error"], ?_, by simp, rfl⟩
    unfold finalizeRun; simp
  · have hl := summaryFreeB_layout e.layoutFault
    split
    · right
      refine ⟨[Ev.ok ("Project folder: " ++ e.projectDir)] ++ (layoutRunEvents e.layoutFault).1
        ++ [Ev.error "Unexpected error: error", Ev.error "traceback"], ?_, ?_, rfl⟩
      · unfold finalizeRun; simp
      · simp [hl]
    · split
      · exact afterVenv_shape e _ [] true (by simp [hl])
      · split
        · exact afterVenv_shape e _ _ true (by simp [hl, summaryFreeB_createVenv])
        · right
          refine ⟨([Ev.ok ("Project folder: " ++ e.projectDir)] ++ (layoutRunEvents e.layoutFault).1)
            ++ (createVenvStep e.stop e.venvWritePerm (e.projectDir ++ "/venv")
                e.projectDir e.venvCmdRc).events
            ++ (cleanupVenvStep e.cleanupOnFail true false e.rmtreeOk).1, ?_, ?_, rfl⟩
          · unfold finalizeRun; simp
          · simp [hl, summaryFreeB_createVenv, summaryFreeB_cleanup]

/-- When the stop flag is set, `create_venv` always returns `False` (either
the permission probe fails, or the streamed venv command is cancelled with
code 1). -/
lemma createVenvStep_stop (wp : Bool) (vp n : String) (rc : Int) :
    (createVenvStep true wp vp n rc).ok = false := by
  unfold createVenvStep runCmdRec
  cases wp <;> simp

/-- `success_count` equals the number of packages whose install command
returned zero. -/
lemma installLoop_count (pip : String) (rcOf : String → Int) (total : Nat)
    (pkgs : List String) (idx count : Nat) :
    (installLoop pip rcOf total pkgs idx count).2.2 =
      count + pkgs.countP (fun p => rcOf p = 0) := by
  induction pkgs generalizing idx count with
  | nil => simp [installLoop]
  | cons p ps ih =>
    unfold installLoop
    dsimp only [runCmdRec]
    by_cases hp : rcOf p = 0
    · simp [hp, ih, List.countP_cons, Nat.add_comm, Nat.add_assoc, Nat.add_left_comm]
    · simp [hp, ih, List.countP_cons, Nat.add_comm, Nat.add_assoc, Nat.add_left_comm]

/-- Every command launched by the per-package loop is `[pip, "install", q]`
for one of the looped packages. -/
lemma installLoop_cmds (pip : String) (rcOf : String → Int) (total : Nat)
    (pkgs : List String) (idx count : Nat) :
    ∀ c ∈ (installLoop pip rcOf total pkgs idx count).2.1,
      ∃ q ∈ pkgs, c = [pip, "install", q] := by
  induction pkgs generalizing idx count with
  | nil => simp [installLoop]
  | cons p ps ih =>
    unfold installLoop
    dsimp only [runCmdRec]
    intro c hc
    simp only [Bool.false_eq_true, if_false, List.mem_cons, List.mem_append,
      List.mem_singleton, ite_false] at hc
    rcases hc with (hc | hc) | hc
    · exact ⟨p, by simp, hc⟩
    · cases hc
    · obtain ⟨q, hq, hcq⟩ := ih (idx + 1) _ c hc
      exact ⟨q, by simp [hq], hcq⟩

/-- Every package kept by the validation filter passed
`validate_package_name`. -/
lemma filterValidated_sound (pkgs : List String) :
    ∀ q ∈ (filterValidated pkgs).1, (validate_package_name q).1 = true := by
  induction pkgs with
  | nil => simp [filterValidated]
  | cons p ps ih =>
    unfold filterValidated
    dsimp only
    split
    · intro q hq
      rcases List.mem_cons.mp hq with hq | hq
      · subst hq; assumption
      · exact ih q hq
    · exact ih

/-- Every invalid entry of the incoming list is dropped by the filter and gets
its skip warning posted. -/
lemma filterValidated_skip (pkgs : List String) (p : String)
    (hp : p ∈ pkgs) (hv : (validate_package_name p).1 = false) :
    Ev.warn ("Skipping invalid package: " ++ p ++ " ("
        ++ (validate_package_name p).2 ++ ")") ∈ (filterValidated pkgs).2 ∧
      p ∉ (filterValidated pkgs).1 := by
  constructor
  · induction pkgs with
    | nil => cases hp
    | cons q qs ih =>
      unfold filterValidated
      dsimp only
      rcases List.mem_cons.mp hp with hq | hq
      · subst hq
        rw [if_neg (by simp [hv])]
        simp
      · split
        · exact ih hq
        · exact List.mem_cons_of_mem _ (ih hq)
  · intro hmem
    have := filterValidated_sound pkgs p hmem
    rw [hv] at this
    cases this

/-- When every incoming package is valid the filter is the identity and posts
nothing. -/
lemma filterValidated_of_valid (pkgs : List String)
    (h : ∀ p ∈ pkgs, (validate_package_name p).1 = true) :
    filterValidated pkgs = (pkgs, []) := by
  induction pkgs with
  | nil => rfl
  | cons p ps ih =>
    unfold filterValidated
    rw [ih (fun q hq => h q (List.mem_cons_of_mem _ hq))]
    dsimp only
    rw [if_pos (h p (by simp))]

/-- Every command launched by `install_packages_individual` installs exactly
one of its packages. -/
lemma individual_cmds (stop : Bool) (pip : String) (rcOf : String → Int)
    (pkgs : List String) :
    ∀ c ∈ (install_packages_individual stop pip rcOf pkgs).cmds,
      ∃ q ∈ pkgs, c = [pip, "install", q] := by
  unfold install_packages_individual
  dsimp only
  split
  · simp
  · split
    · exact installLoop_cmds pip rcOf _ pkgs 1 0
    · split
      · exact installLoop_cmds pip rcOf _ pkgs 1 0
      · exact installLoop_cmds pip rcOf _ pkgs 1 0

/-- Every process argument beyond `pip`/`"install"` in any command launched by
`install_packages_batch` is a package that passed `validate_package_name`:
invalid entries reach no process invocation of the batch/fallback path. -/
lemma batch_cmds_validated (stop : Bool) (pip : String) (rcOf : String → Int)
    (batchRc : Int) (pkgs : List String) :
    ∀ c ∈ (install_packages_batch stop pip rcOf batchRc pkgs).cmds,
      ∀ q ∈ c.drop 2, (validate_package_name q).1 = true := by
  unfold install_packages_batch
  dsimp only
  split
  · simp
  · split
    · simp
    · split
      · intro c hc q hq
        simp only [runCmdRec] at hc
        have hcv : c = pip :: "install" :: (filterValidated pkgs).1 := by
          split at hc <;> simpa using hc
        subst hcv
        exact filterValidated_sound pkgs q (by simpa using hq)
      · intro c hc q hq
        simp only [runCmdRec] at hc
        have : c = pip :: "install" :: (filterValidated pkgs).1 ∨
            c ∈ (install_packages_individual stop pip rcOf (filterValidated pkgs).1).cmds := by
          split at hc <;> simpa using hc
        rcases this with hcv | hcv
        · subst hcv
          exact filterValidated_sound pkgs q (by simpa using hq)
        · obtain ⟨r, hr, hcr⟩ := individual_cmds stop pip rcOf _ c hcv
          subst hcr
          simp only [List.drop, List.mem_singleton] at hq
          subst hq
          exact filterValidated_sound pkgs q hr

/-- `afterInstall` never runs the cleanup policy. -/
lemma afterInstall_venvRemoved (e : RunEnv) (evs : List Ev)
    (cmds : List (List String)) (count : Nat) :
    (afterInstall e evs cmds count).venvRemoved = false := rfl

/-- `_cleanup_partial` with the cleanup option off removes nothing. -/
lemma cleanupVenvStep_off (vs ve rm : Bool) :
    (cleanupVenvStep false vs ve rm).2 = false := rfl

/-- With `cleanup_on_fail` off, no run ever removes the venv directory. -/
lemma afterVenv_venvRemoved_off (e : RunEnv) (evs : List Ev)
    (cmds : List (List String)) (venvEx : Bool) (hoff : e.cleanupOnFail = false) :
    (afterVenv e evs cmds venvEx).venvRemoved = false := by
  unfold afterVenv
  dsimp only
  split
  · simp [finalizeRun, hoff, cleanupVenvStep_off]
  · split
    · exact afterInstall_venvRemoved ..
    · split
      · split
        · exact afterInstall_venvRemoved ..
        · simp [finalizeRun, hoff, cleanupVenvStep_off]
      · split
        · exact afterInstall_venvRemoved ..
        · simp [finalizeRun, hoff, cleanupVenvStep_off]

@[simp] lemma isWarnEv_log (s : String) : isWarnEv (.log s) = false := rfl
@[simp] lemma isWarnEv_warn (s : String) : isWarnEv (.warn s) = true := rfl

/-- If the stop flag is set at one of the checks the loop performs (one per
remaining output line plus the final check), the runner kills the child,
returns code 1, and posts exactly one warning — the cancellation message. -/
lemma streamLoop_cancelled (stop : Nat → Bool) (lines : List String) (rc : Int)
    (k : Nat) (htrig : ∃ i, i ≤ lines.length ∧ stop (k + i) = true) :
    (streamLoop stop k lines rc).killed = true ∧
      (streamLoop stop k lines rc).code = 1 ∧
      (streamLoop stop k lines rc).events.countP isWarnEv = 1 ∧
      Ev.warn "Operation cancelled by user." ∈ (streamLoop stop k lines rc).events := by
  induction lines generalizing k with
  | nil =>
    obtain ⟨i, hi, hs⟩ := htrig
    have hk : stop k = true := by
      have : i = 0 := Nat.le_zero.mp hi
      subst this
      simpa using hs
    unfold streamLoop
    rw [if_pos hk]
    simp [List.countP_cons]
  | cons l rest ih =>
    by_cases hk : stop k = true
    · unfold streamLoop
      rw [if_pos hk]
      simp [List.countP_cons]
    · obtain ⟨i, hi, hs⟩ := htrig
      have hi0 : i ≠ 0 := by
        rintro rfl
        simp only [Nat.add_zero] at hs
        exact hk hs
      have htrig2 : ∃ j, j ≤ rest.length ∧ stop (k + 1 + j) = true := by
        refine ⟨i - 1, ?_, ?_⟩
        · simp only [List.length_cons] at hi
          omega
        · have hki : k + 1 + (i - 1) = k + i := by omega
          rw [hki]
          exact hs
      obtain ⟨h1, h2, h3, h4⟩ := ih (k + 1) htrig2
      unfold streamLoop
      rw [if_neg hk]
      dsimp only
      refine ⟨h1, h2, ?_, List.mem_cons_of_mem _ h4⟩
      simp [List.countP_cons, h3]

/-! Filesystem lemmas for `create_directory_structure`. -/

lemma touchFile_dirs (fs : FS) (p : String) : (touchFile fs p).dirs = fs.dirs := by
  unfold touchFile
  split <;> rfl

lemma mkdirExistOk_files (fs : FS) (d : String) :
    (mkdirExistOk fs d).files = fs.files := by
  unfold mkdirExistOk
  split <;> rfl

lemma mkdirExistOk_mem (fs : FS) (d x : String) :
    x ∈ (mkdirExistOk fs d).dirs ↔ x ∈ fs.dirs ∨ x = d := by
  unfold mkdirExistOk
  split
  · rename_i hd
    constructor
    · exact Or.inl
    · rintro (h | rfl)
      · exact h
      · exact hd
  · simp

lemma layoutStep_mem_dirs (fs : FS) (d x : String) :
    x ∈ (layoutStep fs d).dirs ↔ x ∈ fs.dirs ∨ x = d := by
  unfold layoutStep
  dsimp only
  split
  · rw [touchFile_dirs, mkdirExistOk_mem]
  · rw [mkdirExistOk_mem]

lemma foldl_layout_mem (l : List String) (fs : FS) (x : String) :
    x ∈ (l.foldl layoutStep fs).dirs ↔ x ∈ fs.dirs ∨ x ∈ l := by
  induction l generalizing fs with
  | nil => simp
  | cons d l ih =>
    rw [List.foldl_cons, ih, layoutStep_mem_dirs]
    simp [or_assoc]

lemma layoutStep_files_mono (fs : FS) (d : String) (e : String × String)
    (h : e ∈ fs.files) : e ∈ (layoutStep fs d).files := by
  unfold layoutStep
  dsimp only
  have hm : (mkdirExistOk fs d).files = fs.files := mkdirExistOk_files fs d
  split
  · unfold touchFile
    split
    · rw [hm]; exact h
    · dsimp only
      rw [hm]
      exact List.mem_append_left _ h
  · rw [hm]; exact h

lemma foldl_layout_files_mono (l : List String) (fs : FS) (e : String × String)
    (h : e ∈ fs.files) : e ∈ (l.foldl layoutStep fs).files := by
  induction l generalizing fs with
  | nil => exact h
  | cons d l ih => exact ih _ (layoutStep_files_mono fs d e h)

lemma touchFile_mem_self (fs : FS) (p : String) :
    ∃ c, (p, c) ∈ (touchFile fs p).files := by
  unfold touchFile
  split
  · rename_i hany
    rw [List.any_eq_true] at hany
    obtain ⟨e, he, hep⟩ := hany
    refine ⟨e.2, ?_⟩
    have : e.1 = p := by simpa using hep
    have he2 : (p, e.2) = e := by
      cases e
      simp_all
    rw [he2]
    exact he
  · exact ⟨"", by simp⟩

lemma layoutStep_src (fs : FS) :
    layoutStep fs "src" = touchFile (mkdirExistOk fs "src") "src/__init__.py" := by
  unfold layoutStep
  rfl

lemma layoutStep_tests (fs : FS) :
    layoutStep fs "tests" = touchFile (mkdirExistOk fs "tests") "tests/__init__.py" := by
  unfold layoutStep
  rfl

lemma create_fs_src_init (fs : FS) :
    ∃ c, ("src/__init__.py", c) ∈ (create_directory_structure_fs fs).files := by
  obtain ⟨c, hc⟩ := touchFile_mem_self (mkdirExistOk fs "src") "src/__init__.py"
  refine ⟨c, ?_⟩
  show ("src/__init__.py", c) ∈ (layoutDirs.foldl layoutStep fs).files
  rw [show layoutDirs = "src" :: ["tests", "docs", "data", "notebooks", "config", "logs"]
    from rfl, List.foldl_cons, layoutStep_src]
  exact foldl_layout_files_mono _ _ _ hc

lemma create_fs_tests_init (fs : FS) :
    ∃ c, ("tests/__init__.py", c) ∈ (create_directory_structure_fs fs).files := by
  obtain ⟨c, hc⟩ := touchFile_mem_self (mkdirExistOk (layoutStep fs "src") "tests")
    "tests/__init__.py"
  refine ⟨c, ?_⟩
  show ("tests/__init__.py", c) ∈ (layoutDirs.foldl layoutStep fs).files
  rw [show layoutDirs = "src" :: "tests" :: ["docs", "data", "notebooks", "config", "logs"]
    from rfl, List.foldl_cons, List.foldl_cons, layoutStep_tests]
  exact foldl_layout_files_mono _ _ _ hc

lemma create_fs_mem_dirs (fs : FS) (x : String) :
    x ∈ (create_directory_structure_fs fs).dirs ↔ x ∈ fs.dirs ∨ x ∈ layoutDirs :=
  foldl_layout_mem layoutDirs fs x

lemma mkdirExistOk_id (fs : FS) (d : String) (h : d ∈ fs.dirs) :
    mkdirExistOk fs d = fs := by
  unfold mkdirExistOk
  rw [if_pos h]

lemma touchFile_id (fs : FS) (p : String) (h : ∃ c, (p, c) ∈ fs.files) :
    touchFile fs p = fs := by
  unfold touchFile
  rw [if_pos]
  obtain ⟨c, hc⟩ := h
  rw [List.any_eq_true]
  exact ⟨(p, c), hc, by simp⟩

lemma layoutStep_id (fs : FS) (d : String) (h1 : d ∈ fs.dirs)
    (h2 : (d = "src" || d = "tests") = true → ∃ c, (d ++ "/__init__.py", c) ∈ fs.files) :
    layoutStep fs d = fs := by
  unfold layoutStep
  dsimp only
  rw [mkdirExistOk_id fs d h1]
  split
  · exact touchFile_id _ _ (h2 (by assumption))
  · rfl

/-- Running `create_directory_structure` a second time changes nothing: every
directory already exists (`exist_ok=True`) and both `__init__.py` files are
already present (`touch` keeps them). -/
lemma create_fs_idem (fs : FS) :
    create_directory_structure_fs (create_directory_structure_fs fs) =
      create_directory_structure_fs fs := by
  have hd : ∀ d ∈ layoutDirs, d ∈ (create_directory_structure_fs fs).dirs := fun d hdm =>
    (create_fs_mem_dirs fs d).mpr (Or.inr hdm)
  have hsrc := create_fs_src_init fs
  have htests := create_fs_tests_init fs
  have s1 : layoutStep (create_directory_structure_fs fs) "src" =
      create_directory_structure_fs fs :=
    layoutStep_id _ _ (hd _ (by simp [layoutDirs])) (fun _ => hsrc)
  have s2 : layoutStep (create_directory_structure_fs fs) "tests" =
      create_directory_structure_fs fs :=
    layoutStep_id _ _ (hd _ (by simp [layoutDirs])) (fun _ => htests)
  have s3 : layoutStep (create_directory_structure_fs fs) "docs" =
      create_directory_structure_fs fs :=
    layoutStep_id _ _ (hd _ (by simp [layoutDirs])) (fun hcon => absurd hcon (by decide))
  have s4 : layoutStep (create_directory_structure_fs fs) "data" =
      create_directory_structure_fs fs :=
    layoutStep_id _ _ (hd _ (by simp [layoutDirs])) (fun hcon => absurd hcon (by decide))
  have s5 : layoutStep (create_directory_structure_fs fs) "notebooks" =
      create_directory_structure_fs fs :=
    layoutStep_id _ _ (hd _ (by simp [layoutDirs])) (fun hcon => absurd hcon (by decide))
  have s6 : layoutStep (create_directory_structure_fs fs) "config" =
      create_directory_structure_fs fs :=
    layoutStep_id _ _ (hd _ (by simp [layoutDirs])) (fun hcon => absurd hcon (by decide))
  have s7 : layoutStep (create_directory_structure_fs fs) "logs" =
      create_directory_structure_fs fs :=
    layoutStep_id _ _ (hd _ (by simp [layoutDirs])) (fun hcon => absurd hcon (by decide))
  show layoutDirs.foldl layoutStep (create_directory_structure_fs fs) =
    create_directory_structure_fs fs
  rw [show layoutDirs =
    ["src", "tests", "docs", "data", "notebooks", "config", "logs"] from rfl]
  simp only [List.foldl_cons, List.foldl_nil, s1, s2, s3, s4, s5, s6, s7]

/-- The name pattern demands a first and a last alphanumeric character, so any
matching string has at least two characters. -/
lemma matchNamePattern_two_le (s : String) (h : matchNamePattern s = true) :
    2 ≤ s.length := by
  unfold matchNamePattern at h
  cases hl : s.toList with
  | nil => rw [hl] at h; cases h
  | cons c cs =>
    cases cs with
    | nil => rw [hl] at h; cases h
    | cons d ds =>
      have hlen : s.length = s.toList.length := rfl
      rw [hlen, hl]
      simp only [List.length_cons]
      omega

/-! ### Concrete environments used by counterexamples and witnesses -/

/-- A baseline `run` environment in which every oracle succeeds: packages
`["requests", "numpy==1.24.0"]`, README on, git off, cleanup-on-fail on, no
cancellation, fresh venv, pip present. -/
def okEnv : RunEnv := {
  projectDir := "/tmp/demo/Demo", packages := ["requests", "numpy==1.24.0"],
  createReadmeOpt := true, createGitOpt := false, cleanupOnFail := true,
  stop := false, mkdirOk := true, layoutFault := none, venvPreexists := false,
  venvWritePerm := true, venvCmdRc := 0, pipExists := true, pythonExists := true,
  pipExec := "pip", pythonExec := "python3", batchRc := 0, rcOf := fun _ => 0,
  pyPipRc := 0, reqWriteOk := true, readmeWriteOk := true, gitAvailable := false,
  gitOk := false, rmtreeOk := true, sizeBytes := 123 }

/-- Batch install fails, `alpha` installs under the fallback, `beta` does
not. -/
def partialEnv : RunEnv :=
  { okEnv with
    packages := ["alpha", "beta"]
    batchRc := 1
    rcOf := fun p => if p = "alpha" then 0 else 1 }

/-- The venv pre-exists and is reused; the `pip` binary is missing, so the
`python -m pip` alternative path is taken with the raw package list. -/
def pyPipEnv : RunEnv :=
  { okEnv with
    packages := ["pkg;x"]
    venvPreexists := true
    pipExists := false }

/-- The venv pre-exists and is reused; neither `pip` nor the venv's python can
be located, a fatal fault. -/
def reuseLocateFailEnv : RunEnv :=
  { okEnv with
    venvPreexists := true
    pipExists := false
    pythonExists := false }

/-- Cancellation is set before the run starts. -/
def stopEnv : RunEnv := { okEnv with stop := true }

/-- The third `mkdir` of the layout step raises. -/
def layoutFaultEnv : RunEnv := { okEnv with layoutFault := some 2 }

/-- The stop flag used by the C4 witness: false at the first check, set from
the second check on. -/
def stopAfterOne : Nat → Bool := fun j => decide (0 < j)

/-! ### Claim theorems -/

/-- **C9**: the validation predicate rejects every package whose base name
(the part before any version separator) is a single character: the name
pattern forces both a first and a last alphanumeric character, hence at least
two characters, so e.g. `q` and `q==1.0` are reported invalid. -/
theorem C9_one_char_rejected :
    (∀ pkg, (baseNameOf pkg).length = 1 → (validate_package_name pkg).1 = false) ∧
    (∀ s, matchNamePattern s = true → 2 ≤ s.length) ∧
    (validate_package_name "q").1 = false ∧
    (validate_package_name "q==1.0").1 = false := by
  refine ⟨?_, matchNamePattern_two_le, by decide, by decide⟩
  intro pkg hb
  unfold validate_package_name
  dsimp only
  split
  · rfl
  · split
    · rfl
    · split
      · rfl
      · split
        · rename_i hm
          exfalso
          have h2 := matchNamePattern_two_le _ hm
          rw [hb] at h2
          omega
        · rfl

/-- Witness for C9 at the concrete one-letter package `w`. -/
theorem C9_witness :
    (baseNameOf "w").length = 1 ∧ (validate_package_name "w").1 = false :=
  ⟨by decide, C9_one_char_rejected.1 "w" (by decide)⟩

/-- **C10**: the layout step creates `src/__init__.py` and
`tests/__init__.py` (via `touch`), and never removes or alters an existing
file entry (so `touch` does not truncate). -/
theorem C10_init_files (fs : FS) :
    (∃ c, ("src/__init__.py", c) ∈ (create_directory_structure_fs fs).files) ∧
    (∃ c, ("tests/__init__.py", c) ∈ (create_directory_structure_fs fs).files) ∧
    (∀ e ∈ fs.files, e ∈ (create_directory_structure_fs fs).files) :=
  ⟨create_fs_src_init fs, create_fs_tests_init fs,
    fun e he => foldl_layout_files_mono layoutDirs fs e he⟩

/-- Witness for C10: a pre-existing `src/__init__.py` with content `keep`
survives the layout step with its content, and `tests/__init__.py` is
created. -/
theorem C10_witness :
    ("src/__init__.py", "keep") ∈
      (create_directory_structure_fs ⟨[], [("src/__init__.py", "keep")]⟩).files ∧
    (∃ c, ("tests/__init__.py", c) ∈
      (create_directory_structure_fs ⟨[], [("src/__init__.py", "keep")]⟩).files) :=
  ⟨(C10_init_files _).2.2 _ (by decide), (C10_init_files _).2.1⟩

/-- **C4** (amended): whenever the stop flag is set at one of the checks the
streaming loop performs, the runner kills the child, posts exactly one
warning (the cancellation message), and returns code 1 — a code an ordinary
failing process can also return, not a distinct sentinel. -/
theorem C4_cancel_streaming (stop : Nat → Bool) (lines : List String) (rc : Int)
    (k : Nat) (htrig : ∃ i, i ≤ lines.length ∧ stop (k + i) = true) :
    (streamLoop stop k lines rc).killed = true ∧
      (streamLoop stop k lines rc).code = 1 ∧
      (streamLoop stop k lines rc).events.countP isWarnEv = 1 ∧
      Ev.warn "Operation cancelled by user." ∈ (streamLoop stop k lines rc).events :=
  streamLoop_cancelled stop lines rc k htrig

/-- Witness for C4: the flag becomes set after the first line is streamed. -/
theorem C4_witness :
    (∃ i, i ≤ (["line one", "line two"] : List String).length ∧
      stopAfterOne (0 + i) = true) ∧
    ((streamLoop stopAfterOne 0 ["line one", "line two"] 0).killed = true ∧
      (streamLoop stopAfterOne 0 ["line one", "line two"] 0).code = 1 ∧
      (streamLoop stopAfterOne 0 ["line one", "line two"] 0).events.countP isWarnEv = 1 ∧
      Ev.warn "Operation cancelled by user." ∈
        (streamLoop stopAfterOne 0 ["line one", "line two"] 0).events) :=
  ⟨⟨1, by decide, by decide⟩,
    C4_cancel_streaming stopAfterOne ["line one", "line two"] 0 0 ⟨1, by decide, by decide⟩⟩

/-- Counterexample to C4 as stated: the cancelled runner returns 1, the very
code a real process that fails normally (uncancelled, exit status 1) also
yields, so the "sentinel" is not distinct from real exit codes. -/
theorem C4_counterexample :
    (streamLoop (fun _ => true) 0 ["collecting packages"] 0).code = 1 ∧
    (streamLoop (fun _ => true) 0 ["collecting packages"] 0).killed = true ∧
    (streamLoop (fun _ => false) 0 ["error detail"] 1).code = 1 ∧
    (streamLoop (fun _ => false) 0 ["error detail"] 1).killed = false :=
  ⟨by decide, by decide, by decide, by decide⟩

/-- **C2** (amended): every run ends with a `done` event carrying its success
flag followed by a terminal `progress_complete`; the `summary` is emitted
between them on success only — a failed run emits no `summary` at all. -/
theorem C2_final_events (e : RunEnv) :
    ((runWorker e).success = true →
      ∃ pre, (runWorker e).events = pre ++ [Ev.done true,
        Ev.summary e.projectDir e.sizeBytes e.packages.length e.createGitOpt,
        Ev.progressComplete]) ∧
    ((runWorker e).success = false →
      (∃ pre, (runWorker e).events = pre ++ [Ev.done false, Ev.progressComplete]) ∧
      ∀ p s n g, Ev.summary p s n g ∉ (runWorker e).events) := by
  rcases runWorker_shape e with ⟨pre, hev, hfree, hs⟩ | ⟨pre, hev, hfree, hs⟩
  · refine ⟨fun _ => ⟨pre, hev⟩, fun hc => ?_⟩
    rw [hs] at hc
    cases hc
  · refine ⟨fun hc => ?_, fun _ => ⟨⟨pre, hev⟩, ?_⟩⟩
    · rw [hs] at hc
      cases hc
    · intro p s n g
      rw [hev]
      exact not_mem_of_summaryFreeB (by simp [hfree]) p s n g

/-- Witness for C2: the all-success baseline run ends with `done true`,
`summary`, `progress_complete`. -/
theorem C2_witness :
    (runWorker okEnv).success = true ∧
    ∃ pre, (runWorker okEnv).events = pre ++ [Ev.done true,
      Ev.summary "/tmp/demo/Demo" 123 2 false, Ev.progressComplete] :=
  ⟨by decide, (C2_final_events okEnv).1 (by decide)⟩

/-- Counterexample to C2 as stated: a run whose project-folder creation fails
emits `done false` directly followed by `progress_complete` — no `summary`
event follows the `done`, contrary to "followed unconditionally by a Summary
event". -/
theorem C2_counterexample :
    (runWorker { okEnv with mkdirOk := false }).events =
      [Ev.error "Cannot create project folder: error", Ev.done false,
        Ev.progressComplete] ∧
    summaryFreeB (runWorker { okEnv with mkdirOk := false }).events = true :=
  ⟨by decide, by decide⟩

/-- **C7** (amended): the `summary` event of any run carries
`package_count = len(self.packages)` — the number of packages *requested* of
the worker — together with the request's path, the computed size and the git
option flag. -/
theorem C7_summary_count (e : RunEnv) (p : String) (s n : Nat) (g : Bool)
    (h : Ev.summary p s n g ∈ (runWorker e).events) :
    n = e.packages.length ∧ p = e.projectDir ∧ s = e.sizeBytes ∧
      g = e.createGitOpt := by
  rcases runWorker_shape e with ⟨pre, hev, hfree, _⟩ | ⟨pre, hev, hfree, _⟩
  · rw [hev] at h
    rcases List.mem_append.mp h with h | h
    · exact absurd h (not_mem_of_summaryFreeB hfree p s n g)
    · simp only [List.mem_cons, List.not_mem_nil, or_false] at h
      rcases h with h | h | h
      · cases h
      · have := Ev.summary.injEq .. ▸ h
        injection h with h1 h2 h3 h4
        exact ⟨h3, h1, h2, h4⟩
      · cases h
  · rw [hev] at h
    rcases List.mem_append.mp h with h | h
    · exact absurd h (not_mem_of_summaryFreeB hfree p s n g)
    · simp only [List.mem_cons, List.not_mem_nil, or_false] at h
      rcases h with h | h
      · cases h
      · cases h

/-- Witness for C7 at the baseline run: its summary carries count 2 — the
length of the requested package list. -/
theorem C7_witness :
    Ev.summary "/tmp/demo/Demo" 123 2 false ∈ (runWorker okEnv).events ∧
    ((2 : Nat) = okEnv.packages.length ∧ "/tmp/demo/Demo" = okEnv.projectDir ∧
      (123 : Nat) = okEnv.sizeBytes ∧ false = okEnv.createGitOpt) :=
  ⟨by decide, C7_summary_count okEnv "/tmp/demo/Demo" 123 2 false (by decide)⟩

/-- Counterexample to C7 as stated: with batch failing and only `alpha` of
`["alpha", "beta"]` installing under the fallback, one package is actually
installed but the emitted `summary` still carries package count 2. -/
theorem C7_counterexample :
    (runWorker partialEnv).installedCount = 1 ∧
    Ev.summary "/tmp/demo/Demo" 123 2 false ∈ (runWorker partialEnv).events ∧
    Ev.warn "Installed 1/2 packages." ∈ (runWorker partialEnv).events :=
  ⟨by decide, by decide, by decide⟩

/-- **C3** (amended): the worker does not check the cancellation flag between
step transitions; the flag is observed only inside the process runner's
streaming loop and at the top of each per-package fallback attempt.  With the
flag set from the start (and a fresh venv to build), the folder and layout
steps still execute, the venv-creation step then fails on the cancelled
runner, `_cleanup_partial` runs, and the run finalizes with `done false`
followed by `progress_complete`. -/
theorem C3_cancellation (e : RunEnv) (hstop : e.stop = true)
    (hmk : e.mkdirOk = true) (hlay : e.layoutFault = none)
    (hpre : e.venvPreexists = false) :
    (runWorker e).success = false ∧
    Ev.log "Created directory: src/" ∈ (runWorker e).events ∧
    (runWorker e).cleanupRan = true ∧
    ∃ pre, (runWorker e).events = pre ++ [Ev.done false, Ev.progressComplete] := by
  have hv : (createVenvStep e.stop e.venvWritePerm (e.projectDir ++ "/venv")
      e.projectDir e.venvCmdRc).ok = false := by
    rw [hstop]
    exact createVenvStep_stop ..
  unfold runWorker
  rw [if_neg (by simp [hmk])]
  dsimp only
  rw [hlay]
  rw [if_neg (by simp [layoutRunEvents])]
  rw [hpre]
  rw [if_neg (by simp)]
  rw [if_neg (by simp [hv])]
  refine ⟨rfl, ?_, rfl, ?_⟩
  · simp [finalizeRun, layoutRunEvents, layoutDirs]
  · refine ⟨([Ev.ok ("Project folder: " ++ e.projectDir)] ++ (layoutRunEvents none).1)
      ++ (createVenvStep e.stop e.venvWritePerm (e.projectDir ++ "/venv")
          e.projectDir e.venvCmdRc).events
      ++ (cleanupVenvStep e.cleanupOnFail true false e.rmtreeOk).1, ?_⟩
    unfold finalizeRun
    simp

/-- Witness for C3 at the concrete cancelled-from-the-start environment. -/
theorem C3_witness :
    (stopEnv.stop = true ∧ stopEnv.mkdirOk = true ∧ stopEnv.layoutFault = none ∧
      stopEnv.venvPreexists = false) ∧
    ((runWorker stopEnv).success = false ∧
      Ev.log "Created directory: src/" ∈ (runWorker stopEnv).events ∧
      (runWorker stopEnv).cleanupRan = true ∧
      ∃ pre, (runWorker stopEnv).events = pre ++ [Ev.done false, Ev.progressComplete]) :=
  ⟨⟨rfl, rfl, rfl, rfl⟩, C3_cancellation stopEnv rfl rfl rfl rfl⟩

/-- Counterexample to C3 as stated: the flag is set before the run even
starts, yet the folder step and the whole layout step still execute (their
events are posted) — the worker checks no cancellation at step
transitions. -/
theorem C3_counterexample :
    stopEnv.stop = true ∧
    Ev.ok ("Project folder: " ++ "/tmp/demo/Demo") ∈ (runWorker stopEnv).events ∧
    Ev.log "Created directory: src/" ∈ (runWorker stopEnv).events ∧
    Ev.log "Created directory: logs/" ∈ (runWorker stopEnv).events :=
  ⟨rfl, by decide, by decide, by decide⟩

/-- With `cleanup_on_fail` off, no run removes the venv directory. -/
lemma runWorker_venvRemoved_off (e : RunEnv) (hoff : e.cleanupOnFail = false) :
    (runWorker e).venvRemoved = false := by
  unfold runWorker
  dsimp only
  split
  · rfl
  · split
    · rfl
    · split
      · exact afterVenv_venvRemoved_off e _ [] true hoff
      · split
        · exact afterVenv_venvRemoved_off e _ _ true hoff
        · simp [finalizeRun, hoff, cleanupVenvStep_off]

/-- **C6** (amended): on a fatal fault, `_cleanup_partial` removes the venv
directory exactly when the cleanup option is on, `self.venv_path` is set and
the directory exists — *regardless of whether the directory pre-existed and
was merely reused*; a fault during the removal is posted as a warning and
never escalated, and with the option off nothing is ever removed. -/
theorem C6_cleanup_policy :
    (∀ f vs ve rm, ((cleanupVenvStep f vs ve rm).2 = true ↔
      (f = true ∧ vs = true ∧ ve = true ∧ rm = true))) ∧
    (∀ f vs ve, f = true → vs = true → ve = true →
      cleanupVenvStep f vs ve false = ([Ev.warn "Failed to cleanup: error"], false)) ∧
    (∀ e, e.cleanupOnFail = false → (runWorker e).venvRemoved = false) := by
  refine ⟨?_, ?_, fun e => runWorker_venvRemoved_off e⟩
  · intro f vs ve rm
    unfold cleanupVenvStep
    cases f <;> cases vs <;> cases ve <;> cases rm <;> simp
  · rintro f vs ve rfl rfl rfl
    rfl

/-- Witness for C6: a failing `rmtree` yields one warning and no removal, and
a run with the option off removes nothing. -/
theorem C6_witness :
    cleanupVenvStep true true true false = ([Ev.warn "Failed to cleanup: error"], false) ∧
    (runWorker { okEnv with cleanupOnFail := false }).venvRemoved = false :=
  ⟨C6_cleanup_policy.2.1 true true true rfl rfl rfl,
    C6_cleanup_policy.2.2 { okEnv with cleanupOnFail := false } rfl⟩

/-- Counterexample to C6 as stated: the venv directory pre-existed and the run
merely reused it; when locating pip then fails fatally, the cleanup removes
the pre-existing directory anyway (the code never records whether this run
created it). -/
theorem C6_counterexample :
    reuseLocateFailEnv.venvPreexists = true ∧
    reuseLocateFailEnv.cleanupOnFail = true ∧
    (runWorker reuseLocateFailEnv).success = false ∧
    (runWorker reuseLocateFailEnv).venvRemoved = true :=
  ⟨rfl, rfl, by decide, by decide⟩

/-- **C8** (amended): the layout step creates exactly the seven fixed
subdirectories (`src`, `tests`, `docs`, `data`, `notebooks`, `config`,
`logs`): a directory exists afterwards iff it existed before or is one of the
seven, and running the step twice is the identity on the filesystem (each
`mkdir` uses `exist_ok=True`, each `touch` keeps existing files).  However, a
fault inside the step is *not* caught locally: it propagates to the worker's
catch-all, is posted as an `error` event, and the run finalizes as failed. -/
theorem C8_layout (fs : FS) (e : RunEnv) (i : Nat)
    (hf : e.layoutFault = some i) (hi : i < layoutDirs.length) :
    (∀ x, x ∈ (create_directory_structure_fs fs).dirs ↔
      x ∈ fs.dirs ∨ x ∈ layoutDirs) ∧
    (create_directory_structure_fs ⟨[], []⟩).dirs =
      ["src", "tests", "docs", "data", "notebooks", "config", "logs"] ∧
    create_directory_structure_fs (create_directory_structure_fs fs) =
      create_directory_structure_fs fs ∧
    (runWorker e).success = false ∧
    (e.mkdirOk = true → Ev.error "Unexpected error: error" ∈ (runWorker e).events) := by
  refine ⟨fun x => create_fs_mem_dirs fs x, by decide, create_fs_idem fs, ?_⟩
  unfold runWorker
  dsimp only
  by_cases hmk : e.mkdirOk = false
  · rw [if_pos hmk]
    exact ⟨rfl, fun h => absurd h (by simp [hmk])⟩
  · rw [if_neg hmk]
    rw [hf]
    have hl2 : (layoutRunEvents (some i)).2 = false := by
      unfold layoutRunEvents
      dsimp only
      rw [if_pos hi]
    rw [if_pos hl2]
    refine ⟨rfl, fun _ => ?_⟩
    simp [finalizeRun]

/-- Witness for C8: idempotence at a concrete filesystem, and the concrete
faulting run fails with an error event. -/
theorem C8_witness :
    create_directory_structure_fs (create_directory_structure_fs ⟨["old"], []⟩) =
      create_directory_structure_fs ⟨["old"], []⟩ ∧
    (runWorker layoutFaultEnv).success = false ∧
    Ev.error "Unexpected error: error" ∈ (runWorker layoutFaultEnv).events := by
  have h := C8_layout ⟨["old"], []⟩ layoutFaultEnv 2 rfl (by decide)
  exact ⟨h.2.2.1, h.2.2.2.1, h.2.2.2.2 rfl⟩

/-- Counterexample to C8 as stated: a fault in the layout step is posted as an
`error` (no warning is emitted at all) and the run fails — the claim's
"logged as a warning and not fatal" is wrong on both counts. -/
theorem C8_counterexample :
    (runWorker layoutFaultEnv).success = false ∧
    Ev.error "Unexpected error: error" ∈ (runWorker layoutFaultEnv).events ∧
    (runWorker layoutFaultEnv).events.countP isWarnEv = 0 ∧
    Ev.done false ∈ (runWorker layoutFaultEnv).events :=
  ⟨by decide, by decide, by decide, by decide⟩

/-- **C1** (amended): on the pip-binary install path, every entry failing
`validate_package_name` is excluded from the kept list, gets a skip warning
posted, and every package argument (beyond the executable and `"install"`) of
every launched install command passed validation.  (As stated the claim is
wrong on two counts, see the counterexample: the predicate checks
metacharacters only in the base name before any version separator, and the
`python -m pip` alternative path passes the raw list unvalidated.) -/
theorem C1_injection_guard (stop : Bool) (pip : String) (rcOf : String → Int)
    (batchRc : Int) (pkgs : List String) (p : String) (hp : p ∈ pkgs)
    (hv : (validate_package_name p).1 = false) :
    (∀ c ∈ (install_packages_batch stop pip rcOf batchRc pkgs).cmds,
      ∀ q ∈ c.drop 2, (validate_package_name q).1 = true) ∧
    p ∉ (filterValidated pkgs).1 ∧
    Ev.warn ("Skipping invalid package: " ++ p ++ " ("
        ++ (validate_package_name p).2 ++ ")") ∈
      (install_packages_batch stop pip rcOf batchRc pkgs).events := by
  refine ⟨batch_cmds_validated stop pip rcOf batchRc pkgs,
    (filterValidated_skip pkgs p hp hv).2, ?_⟩
  have hw := (filterValidated_skip pkgs p hp hv).1
  have hne : pkgs.isEmpty = false := by
    cases pkgs
    · cases hp
    · rfl
  unfold install_packages_batch
  rw [if_neg (by simp [hne])]
  dsimp only
  split
  · simp only [List.mem_append]
    tauto
  · split
    · simp only [List.mem_append]
      tauto
    · simp only [List.mem_append]
      tauto

/-- Witness for C1 at a concrete list with one invalid entry. -/
theorem C1_witness :
    ("bad;pkg" ∈ ["numpy", "bad;pkg"]) ∧
    (validate_package_name "bad;pkg").1 = false ∧
    ((∀ c ∈ (install_packages_batch false "pip" (fun _ => (0 : Int)) 1
        ["numpy", "bad;pkg"]).cmds,
        ∀ q ∈ c.drop 2, (validate_package_name q).1 = true) ∧
      "bad;pkg" ∉ (filterValidated ["numpy", "bad;pkg"]).1 ∧
      Ev.warn ("Skipping invalid package: " ++ "bad;pkg" ++ " ("
          ++ (validate_package_name "bad;pkg").2 ++ ")") ∈
        (install_packages_batch false "pip" (fun _ => (0 : Int)) 1
          ["numpy", "bad;pkg"]).events) :=
  ⟨by decide, by decide,
    C1_injection_guard false "pip" (fun _ => 0) 1 ["numpy", "bad;pkg"] "bad;pkg"
      (by decide) (by decide)⟩

/-- Counterexample to C1 as stated: `requests==1.0;rm` contains `;` in its
text yet passes validation (only the base name before the version separator
is checked), and on the `python -m pip` alternative path the raw entry
`pkg;x` — which the predicate rejects — is passed straight into the launched
command. -/
theorem C1_counterexample :
    (validate_package_name "requests==1.0;rm").1 = true ∧
    (validate_package_name "pkg;x").1 = false ∧
    ["python3", "-m", "pip", "install", "pkg;x"] ∈ (runWorker pyPipEnv).cmds :=
  ⟨by decide, by decide, by decide⟩

/-! ### C5: aggregation of the per-package fallback -/

/-- `success_count` of the fallback equals the number of packages whose
install command returned zero. -/
lemma individual_count_eq (pip : String) (rcOf : String → Int) (pkgs : List String) :
    (install_packages_individual false pip rcOf pkgs).count =
      pkgs.countP (fun p => rcOf p = 0) := by
  have hcnt := installLoop_count pip rcOf pkgs.length pkgs 1 0
  unfold install_packages_individual
  rw [if_neg (by simp)]
  dsimp only
  split
  · simpa using hcnt
  · split
    · simpa using hcnt
    · simpa using hcnt

/-- All install commands return zero → the fallback reports `True`. -/
lemma individual_all_ok (pip : String) (rcOf : String → Int) (pkgs : List String)
    (h : ∀ p ∈ pkgs, rcOf p = 0) :
    (install_packages_individual false pip rcOf pkgs).ok = true := by
  have hcnt := installLoop_count pip rcOf pkgs.length pkgs 1 0
  have hcp : pkgs.countP (fun p => rcOf p = 0) = pkgs.length := by
    rw [List.countP_eq_length]
    intro a ha
    simpa using h a ha
  unfold install_packages_individual
  rw [if_neg (by simp)]
  dsimp only
  rw [if_pos (by rw [hcnt, Nat.zero_add, hcp])]

/-- No install command returns zero (and the list is nonempty) → the fallback
reports `False`. -/
lemma individual_none_ok (pip : String) (rcOf : String → Int) (pkgs : List String)
    (hne : pkgs ≠ []) (h : ∀ p ∈ pkgs, rcOf p ≠ 0) :
    (install_packages_individual false pip rcOf pkgs).ok = false := by
  have hcnt := installLoop_count pip rcOf pkgs.length pkgs 1 0
  have hcp : pkgs.countP (fun p => rcOf p = 0) = 0 := by
    rw [List.countP_eq_zero]
    intro a ha
    simpa using h a ha
  have hlen : pkgs.length ≠ 0 := by
    cases pkgs
    · cases hne rfl
    · simp
  unfold install_packages_individual
  rw [if_neg (by simp)]
  dsimp only
  rw [if_neg (by rw [hcnt, Nat.zero_add, hcp]; omega)]
  rw [if_neg (by rw [hcnt, Nat.zero_add, hcp]; omega)]

/-- Some but not all install commands return zero → the fallback reports
`True` and posts the installed-versus-requested warning. -/
lemma individual_mixed_ok (pip : String) (rcOf : String → Int) (pkgs : List String)
    (hsome : ∃ p ∈ pkgs, rcOf p = 0) (hfail : ∃ q ∈ pkgs, rcOf q ≠ 0) :
    (install_packages_individual false pip rcOf pkgs).ok = true ∧
    Ev.warn ("Installed " ++ toString (pkgs.countP (fun p => rcOf p = 0))
        ++ "/" ++ toString pkgs.length ++ " packages.")
      ∈ (install_packages_individual false pip rcOf pkgs).events := by
  have hcnt := installLoop_count pip rcOf pkgs.length pkgs 1 0
  have hpos : 0 < pkgs.countP (fun p => rcOf p = 0) := by
    rw [List.countP_pos_iff]
    obtain ⟨p, hp, hp0⟩ := hsome
    exact ⟨p, hp, by simpa using hp0⟩
  have hne : pkgs.countP (fun p => rcOf p = 0) ≠ pkgs.length := by
    intro hEq
    obtain ⟨q, hq, hq0⟩ := hfail
    have := List.countP_eq_length.mp hEq q hq
    exact hq0 (by simpa using this)
  unfold install_packages_individual
  rw [if_neg (by simp)]
  dsimp only
  rw [if_neg (by rw [hcnt, Nat.zero_add]; exact hne)]
  rw [if_pos (by rw [hcnt, Nat.zero_add]; exact hpos)]
  refine ⟨rfl, ?_⟩
  rw [hcnt, Nat.zero_add]
  simp

/-- `(cleanupVenvStep f vs ve rm).2` is the conjunction of all four flags. -/
lemma cleanupVenvStep_removed (f vs ve rm : Bool) :
    (cleanupVenvStep f vs ve rm).2 = (f && vs && ve && rm) := by
  cases f <;> cases vs <;> cases ve <;> cases rm <;> rfl

/-- The install gate of `run` (lines 587–590) on the pip-binary path with a
nonempty package list: the run's success flag equals the batch installer's
result, and a `False` result runs `_cleanup_partial`. -/
lemma afterVenv_install_gate (e : RunEnv) (evs : List Ev)
    (cmds : List (List String)) (venvEx : Bool) (hpip : e.pipExists = true)
    (hne : e.packages.isEmpty = false) :
    (afterVenv e evs cmds venvEx).success =
      (install_packages_batch e.stop e.pipExec e.rcOf e.batchRc e.packages).ok ∧
    ((install_packages_batch e.stop e.pipExec e.rcOf e.batchRc e.packages).ok = false →
      (afterVenv e evs cmds venvEx).cleanupRan = true ∧
      (afterVenv e evs cmds venvEx).venvRemoved =
        (cleanupVenvStep e.cleanupOnFail true venvEx e.rmtreeOk).2) := by
  unfold afterVenv
  simp only [hpip, Bool.not_true, Bool.false_and, Bool.false_eq_true, if_false,
    ite_false, List.append_nil, hne]
  cases hok : (install_packages_batch e.stop e.pipExec e.rcOf e.batchRc e.packages).ok with
  | true => simp [hok, afterInstall, finalizeRun]
  | false => simp [hok, finalizeRun]

/-- The environment reaching the per-package fallback: nonempty validated
packages, pip present, the batch command failing with code 1, venv reused,
cleanup enabled, every other oracle succeeding. -/
def fallbackEnv (pkgs : List String) (rcOf : String → Int) : RunEnv :=
  { okEnv with
    packages := pkgs
    rcOf := rcOf
    batchRc := 1
    venvPreexists := true }

/-- With all packages valid and the batch command failing, the batch
installer's verdict and count are those of the per-package fallback. -/
lemma batch_fallback (pip : String) (rcOf : String → Int) (pkgs : List String)
    (hne : pkgs ≠ []) (hv : ∀ p ∈ pkgs, (validate_package_name p).1 = true)
    (batchRc : Int) (hbrc : batchRc ≠ 0) :
    (install_packages_batch false pip rcOf batchRc pkgs).ok =
      (install_packages_individual false pip rcOf pkgs).ok ∧
    (install_packages_batch false pip rcOf batchRc pkgs).count =
      (install_packages_individual false pip rcOf pkgs).count := by
  have hie : pkgs.isEmpty = false := by
    cases pkgs
    · cases hne rfl
    · rfl
  unfold install_packages_batch
  rw [if_neg (by simp [hie])]
  dsimp only
  rw [filterValidated_of_valid pkgs hv]
  dsimp only
  rw [if_neg (by simp [hie])]
  simp only [runCmdRec, Bool.false_eq_true, if_false, ite_false]
  rw [if_neg hbrc]
  exact ⟨rfl, rfl⟩

/-- `run` on a fallback environment reduces to the install gate after the
reused venv. -/
lemma runWorker_fallback_eq (pkgs : List String) (rcOf : String → Int) :
    runWorker (fallbackEnv pkgs rcOf) =
      afterVenv (fallbackEnv pkgs rcOf)
        (([Ev.ok ("Project folder: " ++ "/tmp/demo/Demo")] ++ (layoutRunEvents none).1)
          ++ [Ev.warn "venv already exists - reusing."]) [] true := rfl

/-- **C5**: aggregation of the per-package fallback on a nonempty validated
list: all commands return zero → `True`; some but not all → `True` plus the
installed-versus-requested warning; none → `False`.  At run level the success
flag equals the installer's verdict, and only the `False` outcome is fatal,
triggering `_cleanup_partial`. -/
theorem C5_fallback_aggregation (pkgs : List String) (rcOf : String → Int)
    (hne : pkgs ≠ []) (hv : ∀ p ∈ pkgs, (validate_package_name p).1 = true) :
    ((∀ p ∈ pkgs, rcOf p = 0) →
      (install_packages_individual false "pip" rcOf pkgs).ok = true) ∧
    ((∃ p ∈ pkgs, rcOf p = 0) → (∃ q ∈ pkgs, rcOf q ≠ 0) →
      (install_packages_individual false "pip" rcOf pkgs).ok = true ∧
      Ev.warn ("Installed " ++ toString (pkgs.countP (fun p => rcOf p = 0))
          ++ "/" ++ toString pkgs.length ++ " packages.")
        ∈ (install_packages_individual false "pip" rcOf pkgs).events ∧
      (install_packages_individual false "pip" rcOf pkgs).count =
        pkgs.countP (fun p => rcOf p = 0)) ∧
    ((∀ p ∈ pkgs, rcOf p ≠ 0) →
      (install_packages_individual false "pip" rcOf pkgs).ok = false) ∧
    ((runWorker (fallbackEnv pkgs rcOf)).success =
      (install_packages_individual false "pip" rcOf pkgs).ok) ∧
    ((install_packages_individual false "pip" rcOf pkgs).ok = false →
      (runWorker (fallbackEnv pkgs rcOf)).cleanupRan = true ∧
      (runWorker (fallbackEnv pkgs rcOf)).venvRemoved = true) := by
  have hb := batch_fallback "pip" rcOf pkgs hne hv 1 one_ne_zero
  have hie : pkgs.isEmpty = false := by
    cases pkgs
    · cases hne rfl
    · rfl
  have hgate' : (runWorker (fallbackEnv pkgs rcOf)).success =
      (install_packages_batch false "pip" rcOf 1 pkgs).ok ∧
      ((install_packages_batch false "pip" rcOf 1 pkgs).ok = false →
        (runWorker (fallbackEnv pkgs rcOf)).cleanupRan = true ∧
        (runWorker (fallbackEnv pkgs rcOf)).venvRemoved =
          (cleanupVenvStep true true true true).2) := by
    rw [runWorker_fallback_eq]
    exact afterVenv_install_gate (fallbackEnv pkgs rcOf)
      (([Ev.ok ("Project folder: " ++ "/tmp/demo/Demo")] ++ (layoutRunEvents none).1)
        ++ [Ev.warn "venv already exists - reusing."]) [] true rfl hie
  refine ⟨individual_all_ok "pip" rcOf pkgs, ?_, individual_none_ok "pip" rcOf pkgs hne,
    hgate'.1.trans hb.1, ?_⟩
  · intro hsome hfail
    obtain ⟨hok, hwarn⟩ := individual_mixed_ok "pip" rcOf pkgs hsome hfail
    exact ⟨hok, hwarn, individual_count_eq "pip" rcOf pkgs⟩
  · intro hok
    obtain ⟨hc, hr⟩ := hgate'.2 (hb.1.trans hok)
    exact ⟨hc, hr⟩

/-- The mixed outcome oracle used by the C5 witness: `alpha` installs, `beta`
fails. -/
def mixedRc : String → Int := fun p => if p = "alpha" then 0 else 1

/-- Witness for C5 at the concrete mixed scenario. -/
theorem C5_witness :
    (runWorker (fallbackEnv ["alpha", "beta"] mixedRc)).success =
      (install_packages_individual false "pip" mixedRc ["alpha", "beta"]).ok ∧
    (install_packages_individual false "pip" mixedRc ["alpha", "beta"]).ok = true :=
  ⟨(C5_fallback_aggregation ["alpha", "beta"] mixedRc (by decide) (by decide)).2.2.2.1,
    ((C5_fallback_aggregation ["alpha", "beta"] mixedRc (by decide) (by decide)).2.1
      (by decide) (by decide)).1⟩

end ProjectBuilder
